import Mathlib

set_option maxRecDepth 40000

/-!
Shallow embedding of the LexSaksham clause-analysis pipeline
(`backend/ai_service/app.py`): translation branch, classifier interface,
keyword rule engine, risk fusion, summary cascade, safer-alternative
selection with optional LLM refinement, and the document endpoints.
-/

namespace LexSaksham

/-- ASCII lower-casing of a character, modelling Python `str.lower` on the
character sets used by the service. -/
def asciiLower (c : Char) : Char :=
  if 65 ≤ c.toNat ∧ c.toNat ≤ 90 then Char.ofNat (c.toNat + 32) else c

/-- Python `s.lower()`. -/
def pyLower (s : String) : String := ⟨s.data.map asciiLower⟩

/-- Python `pat in s` substring containment. -/
def subStr (pat s : String) : Bool := decide (pat.data <:+: s.data)

/-- Whitespace characters stripped by Python `str.strip()`. -/
def isPySpace (c : Char) : Bool :=
  c = ' ' || c = '\t' || c = '\n' || c = '\r' || c = Char.ofNat 11 || c = Char.ofNat 12

/-- Remove characters satisfying `p` from both ends of a list. -/
def stripOuter (p : Char → Bool) (l : List Char) : List Char :=
  ((l.dropWhile p).reverse.dropWhile p).reverse

/-- Python `s.strip()`. -/
def pyStrip (s : String) : String := ⟨stripOuter isPySpace s.data⟩

/-- Python `s.strip(c)` for a single character `c`. -/
def pyStripChar (c : Char) (s : String) : String :=
  ⟨stripOuter (fun d => d = c) s.data⟩

/-- Structural test that `xs` is an initial segment of `ys`. -/
def isPre : List Char → List Char → Bool
  | [], _ => true
  | _ :: _, [] => false
  | a :: xs, b :: ys => a == b && isPre xs ys

/-- Split a character list at every occurrence of `sep`,
modelling Python `s.split(sep)` (keeps empty segments). -/
def splitChar (sep : Char) : List Char → List (List Char)
  | [] => [[]]
  | c :: rest =>
    match splitChar sep rest with
    | [] => [[]]
    | g :: gs => if c = sep then [] :: g :: gs else (c :: g) :: gs

/-- Python `s.split(sep)` for a single separator character. -/
def pySplit (sep : Char) (s : String) : List String :=
  (splitChar sep s.data).map (fun l => ⟨l⟩)

/-- Fuelled helper for `removeAllL`: each fuel unit consumes at least one
character of the list, so fuel equal to the list's length is enough. -/
def removeAux (pat : List Char) : Nat → List Char → List Char
  | _, [] => []
  | 0, s => s
  | fuel + 1, c :: rest =>
    if isPre pat (c :: rest) && !pat.isEmpty then
      removeAux pat fuel (rest.drop (pat.length - 1))
    else
      c :: removeAux pat fuel rest

/-- Left-to-right non-overlapping removal of every occurrence of `pat`,
modelling Python `s.replace(pat, "")`. -/
def removeAllL (pat s : List Char) : List Char := removeAux pat s.length s

/-- Python `s.replace(pat, "")`. -/
def pyRemove (pat s : String) : String := ⟨removeAllL pat.data s.data⟩

/-- Python `round(q, 2)` on exact rationals. -/
def pyRound2 (q : ℚ) : ℚ := (round (q * 100) : ℚ) / 100

/-- Python `round(q, 3)` on exact rationals. -/
def pyRound3 (q : ℚ) : ℚ := (round (q * 1000) : ℚ) / 1000

/-- Outcome of the one HTTP chat-completion call the service can make:
either an exception (network failure / unparsable body) or a status code
with the list of returned choice contents. -/
inductive LLMResult where
  | failure : LLMResult
  | response : Nat → List String → LLMResult
deriving DecidableEq

/-- The collaborators and configuration `analyze_single_clause` reads:
the BERT classifier (argmax label and its softmax probability), the
`rule_keywords.json` risk rules (absent key modelled as `none`), the
external translator, the T5 summarizer and the LIME explainer (`none`
models a raised exception), and the LLM endpoint's response. -/
structure Env where
  classLabel : String → String
  classConf : String → ℚ
  highRules : Option (List String)
  mediumRules : Option (List String)
  translator : String → Option String
  t5 : String → Option String
  gemini : LLMResult
  lime : String → Option (List (String × ℚ))

/-- The fixed sentence returned by `translate_to_english` whenever the
input contains either hard-coded Devanagari keyword. -/
def FIXED_TRANSLATION : String :=
  "If a party breaches the contract, they will be liable to pay damages."

/-- `translate_to_english`: hard-coded keyword shortcut, then the external
translator; any translator failure returns the input unchanged. -/
def translate_to_english (env : Env) (text : String) : String :=
  if subStr "उत्तरदायी" text || subStr "हर्ज़ाना" text then
    FIXED_TRANSLATION
  else
    match env.translator text with
    | some t => t
    | none => text

/-- A character in the Devanagari block U+0900–U+097F. -/
def isDevanagari (c : Char) : Bool := 0x900 ≤ c.toNat && c.toNat ≤ 0x97F

/-- `any('ऀ' <= char <= 'ॿ' for char in clause)`. -/
def is_hindi (s : String) : Bool := s.data.any isDevanagari

/-- The text every downstream step operates on: the translation when the
clause contains Devanagari, the clause itself otherwise. -/
def effText (env : Env) (clause : String) : String :=
  if is_hindi clause then translate_to_english env clause else clause

/-- `generate_t5_summary`: the summarizer's output, or the fixed fallback
string when the model call raises. -/
def generate_t5_summary (env : Env) (text : String) : String :=
  match env.t5 text with
  | some s => s
  | none => "Summary unavailable."

/-- Boilerplate openers stripped from the LLM response. -/
def boilerplateMarkers : List String :=
  ["Safer clause:", "Alternative:", "Here's a safer alternative:",
   "Safer alternative:", "Refined clause:"]

/-- One pass of the prefix-cleanup loop: if the (lower-cased) suggestion
starts with the (lower-cased) marker, cut it off and strip. -/
def dropMarker (s m : String) : String :=
  if isPre (pyLower m).data (pyLower s).data then pyStrip ⟨s.data.drop m.length⟩
  else s

/-- The response cleanup in `generate_gemini_safer_alternative`:
strip whitespace, strip surrounding quote characters, strip again,
then remove known boilerplate openers. -/
def cleanSuggestion (content : String) : String :=
  boilerplateMarkers.foldl dropMarker
    (pyStrip (pyStripChar (Char.ofNat 39) (pyStripChar (Char.ofNat 34) (pyStrip content))))

/-- `generate_gemini_safer_alternative`: `none` on exception, non-200
status, or empty choices; otherwise the cleaned first choice, rejected
(`none`) when longer than 300 characters. -/
def generate_gemini : LLMResult → Option String
  | .failure => none
  | .response status choices =>
    if status = 200 then
      match choices with
      | [] => none
      | content :: _ =>
        let s := cleanSuggestion content
        if s.length > 300 then none else some s
    else none

/-- One keyword list of the rule engine: does any configured keyword occur
in the lower-cased text? (`none` models the key missing from
`risk_rules`.) -/
def ruleHit (rules : Option (List String)) (lower : String) : Bool :=
  match rules with
  | some ks => ks.any (fun k => subStr k lower)
  | none => false

/-- The three classifier labels that force High risk when no keyword
fired. -/
def overrideLabels : List String := ["Indemnity", "Liability", "Termination"]

/-- The risk-fusion logic of `analyze_single_clause` (lines 232–242):
High keywords, then Medium keywords guarded by `final_risk != "High"`,
then the label override guarded by `final_risk != "High"`. -/
def fuseRisk (high medium : Option (List String)) (label lower : String) : String :=
  let r1 := if ruleHit high lower then "High" else "Low"
  let r2 := if r1 != "High" && ruleHit medium lower then "Medium" else r1
  if r2 != "High" && overrideLabels.contains label then "High" else r2

/-- Fixed disclaimer used as `rule_summary` for Hindi clauses. -/
def HINDI_SUMMARY : String :=
  "This Hindi clause (translated) outlines responsibilities. Please review the English translation carefully."

/-- The `rule_summary` cascade of `analyze_single_clause` (lines 258–270). -/
def ruleSummary (env : Env) (hin : Bool) (lower text : String) : String :=
  if hin then HINDI_SUMMARY
  else if subStr "liability" lower || subStr "indemnification" lower then
    "This clause outlines who is financially responsible if something goes wrong (liability) and who must pay legal costs (indemnity)."
  else if subStr "termination" lower then
    "This clause defines when and how the agreement can be ended."
  else if subStr "force majeure" lower || subStr "force_majeure" (pyLower lower) then
    "This clause addresses circumstances beyond either party's control that may prevent performance of the agreement."
  else if subStr "breach" lower &&
      (subStr "penalty" lower || subStr "penalties" lower || subStr "damages" lower) then
    "This clause defines penalties and remedies for breach of contract."
  else generate_t5_summary env text

def SAFE_LIABILITY : String :=
  "The Provider's total liability under this Agreement shall not exceed the total fees paid by the Client during the preceding 12 months."

def SAFE_TERMINATION : String :=
  "Either party may terminate this Agreement for convenience upon providing thirty (30) days' prior written notice to the other party."

def SAFE_INDEMNITY : String :=
  "Indemnification shall be limited to third-party claims arising directly from gross negligence or willful misconduct."

def SAFE_FORCE_MAJEURE : String :=
  "Neither party shall be liable for any failure or delay in performance under this Agreement due to circumstances beyond its reasonable control, including but not limited to acts of God, natural disasters, war, terrorism, labor disputes, or government actions. The affected party shall notify the other party promptly and use reasonable efforts to resume performance."

def SAFE_BREACH_PENALTIES : String :=
  "In the event of a material breach, the non-breaching party may terminate this Agreement upon thirty (30) days' written notice, provided the breaching party fails to cure such breach within such notice period. Remedies shall be limited to termination and recovery of actual damages directly caused by the breach."

def SAFE_NON_COMPETE : String :=
  "During the term of this Agreement and for a period of twelve (12) months thereafter, the Employee agrees not to engage in any business activity that directly competes with the Employer's business, provided such restriction is limited to the geographic area where the Employer operates and is necessary to protect the Employer's legitimate business interests."

def SAFE_CONFIDENTIALITY : String :=
  "Each party agrees to maintain the confidentiality of all proprietary and confidential information disclosed by the other party, using the same degree of care as it uses to protect its own confidential information, but in no event less than reasonable care. This obligation shall survive termination of this Agreement for a period of three (3) years."

def SAFE_GENERAL : String :=
  "The parties agree to resolve any disputes through mutual consultation before seeking other legal remedies."

/-- The fixed catalog of pre-approved safe-clause texts, generic fallback
included. -/
def templateCatalog : List String :=
  [SAFE_LIABILITY, SAFE_TERMINATION, SAFE_INDEMNITY, SAFE_FORCE_MAJEURE,
   SAFE_BREACH_PENALTIES, SAFE_NON_COMPETE, SAFE_CONFIDENTIALITY, SAFE_GENERAL]

/-- The template cascade of `analyze_single_clause` (lines 277–309):
label-keyword matching first, then clause-text matching, then the generic
fallback. -/
def mlSuggestion (label lower : String) : String :=
  let ll := pyLower label
  if subStr "force" ll && subStr "majeure" ll then SAFE_FORCE_MAJEURE
  else if subStr "breach" ll && (subStr "penalty" ll || subStr "penalties" ll) then SAFE_BREACH_PENALTIES
  else if subStr "liability" ll then SAFE_LIABILITY
  else if subStr "termination" ll then SAFE_TERMINATION
  else if subStr "indemnity" ll || subStr "indemnification" ll then SAFE_INDEMNITY
  else if subStr "non-compete" ll || subStr "noncompete" ll || subStr "non_compete" ll then SAFE_NON_COMPETE
  else if subStr "confidentiality" ll || subStr "nda" ll || subStr "non-disclosure" ll then SAFE_CONFIDENTIALITY
  else if subStr "force majeure" lower || subStr "force_majeure" lower then SAFE_FORCE_MAJEURE
  else if (subStr "breach" lower && (subStr "penalty" lower || subStr "penalties" lower)) ||
      (subStr "liable" lower && subStr "damages" lower && subStr "injunctive" lower) then SAFE_BREACH_PENALTIES
  else if subStr "liability" lower || (subStr "liable" lower && subStr "damages" lower) then SAFE_LIABILITY
  else if subStr "termination" lower then SAFE_TERMINATION
  else if subStr "indemnity" lower || subStr "indemnification" lower then SAFE_INDEMNITY
  else if subStr "non-compete" lower || subStr "noncompete" lower || subStr "non_compete" lower then SAFE_NON_COMPETE
  else if subStr "confidentiality" lower || subStr "nda" lower || subStr "non-disclosure" lower then SAFE_CONFIDENTIALITY
  else SAFE_GENERAL

/-- `common_clause_types` from the source. -/
def commonClauseTypes : List String :=
  ["force majeure", "liability", "termination", "indemnity", "breach", "penalty"]

/-- `is_common_type`: some common clause-type name occurs in the
lower-cased label. -/
def isCommonType (label : String) : Bool :=
  commonClauseTypes.any (fun c => subStr c (pyLower label))

/-- The per-clause analysis record returned by `analyze_single_clause`. -/
structure Record where
  text : String
  label : String
  risk_level : String
  confidence : ℚ
  rule_summary : String
  safer_alternative : String
  lime_explanation : List (String × ℚ)
deriving DecidableEq

/-- The safer-alternative block of `analyze_single_clause` (lines
272–339): nothing below High risk; otherwise the template cascade, with
the LLM consulted only for uncommon labels stuck on the generic template.
The second component records whether the LLM was invoked. -/
def selectSafer (env : Env) (label lower fr : String) : String × Bool :=
  if fr == "High" || fr == "Critical" then
    let ml := mlSuggestion label lower
    if !isCommonType label && ml == SAFE_GENERAL then
      match generate_gemini env.gemini with
      | some g => if g ≠ "" ∧ 20 < g.length ∧ g.length ≤ 250 then (g, true) else (ml, true)
      | none => (ml, true)
    else (ml, false)
  else ("", false)

/-- `analyze_single_clause`, instrumented: the returned record paired with
a flag that is true exactly when `generate_gemini_safer_alternative` was
invoked. -/
def analyzeFull (env : Env) (clause : String) : Record × Bool :=
  let hin := is_hindi clause
  let text := effText env clause
  let label := env.classLabel text
  let conf := env.classConf text
  let lower := pyLower text
  let fr := fuseRisk env.highRules env.mediumRules label lower
  let summ := ruleSummary env hin lower text
  let sa : String × Bool := selectSafer env label lower fr
  let lw := match env.lime text with
    | some l => l.map (fun wp => (wp.1, pyRound3 wp.2))
    | none => []
  ({ text := clause, label := label, risk_level := fr,
     confidence := pyRound2 (conf * 100), rule_summary := summ,
     safer_alternative := sa.1, lime_explanation := lw }, sa.2)

/-- The record `analyze_single_clause` returns. -/
def analyze (env : Env) (clause : String) : Record := (analyzeFull env clause).1

/-- Whether analysing the clause invoked the external LLM. -/
def geminiCalled (env : Env) (clause : String) : Bool := (analyzeFull env clause).2

/-- The segmentation of `analyze_document` (lines 384–386): strip the two
boundary markers, split on newlines, strip each segment, keep the
non-empty ones, keep those longer than 20 characters. -/
def segmentation (raw : String) : List String :=
  let clean := pyRemove "[End of Document]" (pyRemove "[Start of Document]" raw)
  let clauses := ((pySplit '\n' clean).map pyStrip).filter (fun c => c ≠ "")
  clauses.filter (fun c => c.length > 20)

/-- The `/analyze_document` handler: reject empty text with a 400 client
error, otherwise segment (falling back to the whole document) and map the
per-clause analysis over the segments. -/
def analyze_document (env : Env) (raw : String) : Except Nat (List Record) :=
  if raw = "" then .error 400
  else
    let seg := segmentation raw
    let processed := if seg.isEmpty then [raw] else seg
    .ok (processed.map (analyze env))

/-- The `/summarize` handler: no empty-text check; it always runs the full
per-clause analysis and returns its `rule_summary`. -/
def summarize_route (env : Env) (text : String) : Except Nat String :=
  .ok (analyze env text).rule_summary

/-!  Concrete environments and inputs used to instantiate the theorems. -/

/-- A concrete environment: an uncommon classifier label, one High keyword
and one Medium keyword configured, and every external collaborator
failing. -/
def envBase : Env where
  classLabel := fun _ => "Payment Terms"
  classConf := fun _ => 1 / 2
  highRules := some ["unlimited"]
  mediumRules := some ["payment"]
  translator := fun _ => none
  t5 := fun _ => none
  gemini := .failure
  lime := fun _ => none

/-- `envBase` with the classifier always answering `Liability`. -/
def envLiability : Env := { envBase with classLabel := fun _ => "Liability" }

/-- A clause that contains the Medium keyword of `envBase` but not its
High keyword. -/
def cMedium : String := "this mentions payment terms clearly"

/-- A clause that contains the High keyword of `envBase` and none of the
template-selection keywords. -/
def cHigh : String := "this clause is unlimited in scope obviously"

/-- A 250-character LLM answer. -/
def s250 : String := ⟨List.replicate 250 'a'⟩

/-- `envBase` with the LLM returning a 200 response whose single choice is
the 250-character answer. -/
def envLLM250 : Env := { envBase with gemini := .response 200 [s250] }

/-- A Hindi clause containing the hard-coded keyword `उत्तरदायी`. -/
def cHindiKW : String := "यह पक्ष उत्तरदायी होगा"

/-- A Hindi clause containing neither hard-coded keyword. -/
def cHindiPlain : String := "यह एक अनुबंध है"

/-- A document for which marker removal manufactures a fresh
`[Start of Document]` marker inside the single produced clause. -/
def docC9 : String := "X[Start of[End of Document] Document]YYYYYYYYYYYYYYYYYYYYYY"

/-- The clause `docC9` segments to: it contains a boundary marker, so
re-segmenting it strips the marker and yields a different clause. -/
def clauseC9 : String := "X[Start of Document]YYYYYYYYYYYYYYYYYYYYYY"

/-- A marker-free single-clause document. -/
def docPlain : String := "This is a clause that is long enough."

/-!  Helper lemmas about the embedded Python string primitives and the
pipeline components. -/

theorem isPre_iff : ∀ xs ys : List Char, isPre xs ys = true ↔ xs <+: ys := by
  intro xs
  induction xs with
  | nil => intro ys; simp [isPre]
  | cons a xs ih =>
    intro ys
    cases ys with
    | nil => simp [isPre]
    | cons b ys => simp [isPre, ih ys, List.cons_prefix_cons]

theorem removeAux_no_occurrence (pat : List Char) :
    ∀ (fuel : Nat) (s : List Char), ¬ pat <:+: s → removeAux pat fuel s = s := by
  intro fuel
  induction fuel with
  | zero => intro s _; cases s <;> rfl
  | succ n ih =>
    intro s h
    cases s with
    | nil => rfl
    | cons c rest =>
      have hpre : isPre pat (c :: rest) = false := by
        cases hp : isPre pat (c :: rest)
        · rfl
        · exact absurd ((isPre_iff pat (c :: rest)).mp hp).isInfix h
      have hrest : ¬ pat <:+: rest := fun hr => h (List.infix_cons hr)
      simp only [removeAux, hpre, Bool.false_and, if_false]
      rw [ih rest hrest]
      simp

theorem pyRemove_no_occurrence (pat s : String) (h : subStr pat s = false) :
    pyRemove pat s = s := by
  have hinf : ¬ pat.data <:+: s.data := by
    intro hx
    rw [subStr, decide_eq_false_iff_not] at h
    exact h hx
  unfold pyRemove removeAllL
  rw [removeAux_no_occurrence pat.data s.data.length s.data hinf]

theorem splitChar_cons_nil (sep c : Char) (rest : List Char)
    (hsp : splitChar sep rest = []) : splitChar sep (c :: rest) = [[]] := by
  rw [splitChar, hsp]

theorem splitChar_cons_eq (sep c : Char) (rest g0 : List Char) (gs : List (List Char))
    (hsp : splitChar sep rest = g0 :: gs) :
    splitChar sep (c :: rest) = if c = sep then [] :: g0 :: gs else (c :: g0) :: gs := by
  rw [splitChar, hsp]

theorem splitChar_no_sep (sep : Char) (s : List Char) (h : sep ∉ s) :
    splitChar sep s = [s] := by
  induction s with
  | nil => rfl
  | cons c rest ih =>
    have hc : ¬ c = sep := fun e => h (e ▸ List.mem_cons_self c rest)
    have ih' := ih (fun hr => h (List.mem_cons_of_mem c hr))
    simp only [splitChar, ih', if_neg hc]

theorem splitChar_pieces_no_sep (sep : Char) (s : List Char) :
    ∀ g ∈ splitChar sep s, sep ∉ g := by
  induction s with
  | nil =>
    intro g hg
    simp only [splitChar, List.mem_singleton] at hg
    subst hg
    simp
  | cons c rest ih =>
    intro g hg
    cases hsp : splitChar sep rest with
    | nil =>
      rw [splitChar_cons_nil sep c rest hsp] at hg
      simp only [List.mem_singleton] at hg
      subst hg
      simp
    | cons g0 gs =>
      rw [splitChar_cons_eq sep c rest g0 gs hsp] at hg
      by_cases hc : c = sep
      · rw [if_pos hc] at hg
        rcases List.mem_cons.mp hg with h1 | h1
        · subst h1; simp
        · exact ih g (hsp ▸ h1)
      · rw [if_neg hc] at hg
        rcases List.mem_cons.mp hg with h1 | h1
        · subst h1
          intro hmem
          rcases List.mem_cons.mp hmem with h2 | h2
          · exact hc h2.symm
          · exact ih g0 (hsp ▸ List.mem_cons_self g0 gs) h2
        · exact ih g (hsp ▸ List.mem_cons_of_mem g0 h1)

theorem dropWhile_idem (p : Char → Bool) (l : List Char) :
    (l.dropWhile p).dropWhile p = l.dropWhile p := by
  induction l with
  | nil => rfl
  | cons c t ih =>
    by_cases hc : p c = true
    · simp only [List.dropWhile_cons, if_pos hc, ih]
    · simp only [List.dropWhile_cons, if_neg hc]

theorem dropWhile_eq_self_of_initSeg (p : Char → Bool) {l' l : List Char}
    (hpre : l' <+: l) (hl : l.dropWhile p = l) : l'.dropWhile p = l' := by
  cases l' with
  | nil => rfl
  | cons a t =>
    obtain ⟨r, rfl⟩ := hpre
    have ha : p a = false := by
      by_contra hpa
      have hpa' : p a = true := by
        cases hx : p a
        · exact absurd hx hpa
        · rfl
      rw [List.cons_append, List.dropWhile_cons, if_pos hpa'] at hl
      have hlen := congrArg List.length hl
      have hle : ((t ++ r).dropWhile p).length ≤ (t ++ r).length :=
        (List.dropWhile_sublist p).length_le
      simp only [List.length_cons] at hlen
      omega
    rw [List.dropWhile_cons, if_neg (by simp [ha])]

theorem stripOuter_idem (p : Char → Bool) (l : List Char) :
    stripOuter p (stripOuter p l) = stripOuter p l := by
  have h1 : (stripOuter p l).dropWhile p = stripOuter p l := by
    apply dropWhile_eq_self_of_initSeg p _ (dropWhile_idem p l)
    have hsuf : (l.dropWhile p).reverse.dropWhile p <:+ (l.dropWhile p).reverse :=
      List.dropWhile_suffix p
    have hp := hsuf.reverse
    simpa [stripOuter] using hp
  unfold stripOuter at h1 ⊢
  rw [h1, List.reverse_reverse, dropWhile_idem]

theorem pyStrip_idem (s : String) : pyStrip (pyStrip s) = pyStrip s :=
  congrArg String.mk (stripOuter_idem isPySpace s.data)

theorem stripOuter_subset (p : Char → Bool) (l : List Char) : stripOuter p l ⊆ l := by
  intro a ha
  unfold stripOuter at ha
  rw [List.mem_reverse] at ha
  have h1 := (List.dropWhile_sublist p).subset ha
  rw [List.mem_reverse] at h1
  exact (List.dropWhile_sublist p).subset h1

theorem analyze_text_eq (env : Env) (c : String) : (analyze env c).text = c := rfl

theorem analyze_label_eq (env : Env) (c : String) :
    (analyze env c).label = env.classLabel (effText env c) := rfl

theorem analyze_risk_eq (env : Env) (c : String) :
    (analyze env c).risk_level =
      fuseRisk env.highRules env.mediumRules (env.classLabel (effText env c))
        (pyLower (effText env c)) := rfl

theorem analyze_conf_eq (env : Env) (c : String) :
    (analyze env c).confidence = pyRound2 (env.classConf (effText env c) * 100) := rfl

theorem analyze_summary_eq (env : Env) (c : String) :
    (analyze env c).rule_summary =
      ruleSummary env (is_hindi c) (pyLower (effText env c)) (effText env c) := rfl

theorem analyze_safer_eq (env : Env) (c : String) :
    (analyze env c).safer_alternative =
      (selectSafer env (env.classLabel (effText env c)) (pyLower (effText env c))
        (fuseRisk env.highRules env.mediumRules (env.classLabel (effText env c))
          (pyLower (effText env c)))).1 := rfl

theorem geminiCalled_eq (env : Env) (c : String) :
    geminiCalled env c =
      (selectSafer env (env.classLabel (effText env c)) (pyLower (effText env c))
        (fuseRisk env.highRules env.mediumRules (env.classLabel (effText env c))
          (pyLower (effText env c)))).2 := rfl

theorem fuseRisk_mem (h m : Option (List String)) (label lower : String) :
    fuseRisk h m label lower = "Low" ∨ fuseRisk h m label lower = "Medium" ∨
      fuseRisk h m label lower = "High" := by
  unfold fuseRisk
  cases hh : ruleHit h lower <;> cases hm : ruleHit m lower <;>
    cases hc : overrideLabels.contains label <;> simp [hh, hm, hc]

theorem fuseRisk_of_high (h m : Option (List String)) (label lower : String)
    (hh : ruleHit h lower = true) : fuseRisk h m label lower = "High" := by
  unfold fuseRisk
  simp [hh]

theorem fuseRisk_of_medium (h m : Option (List String)) (label lower : String)
    (hh : ruleHit h lower = false) (hm : ruleHit m lower = true) :
    fuseRisk h m label lower =
      if overrideLabels.contains label then "High" else "Medium" := by
  unfold fuseRisk
  cases hc : overrideLabels.contains label <;> simp [hh, hm, hc]

theorem ite_mem_of {α : Type} {S : List α} (c : Prop) [Decidable c] {a b : α}
    (ha : a ∈ S) (hb : b ∈ S) : (if c then a else b) ∈ S := by
  by_cases h : c
  · rwa [if_pos h]
  · rwa [if_neg h]

theorem mlSuggestion_mem (label lower : String) :
    mlSuggestion label lower ∈ templateCatalog := by
  simp only [mlSuggestion]
  repeat' apply ite_mem_of
  all_goals simp [templateCatalog]

theorem templateCatalog_ne_empty : ∀ t ∈ templateCatalog, t ≠ "" := by decide

theorem selectSafer_low (env : Env) (label lower : String) :
    selectSafer env label lower "Low" = ("", false) := rfl

theorem selectSafer_medium (env : Env) (label lower : String) :
    selectSafer env label lower "Medium" = ("", false) := rfl

theorem selectSafer_high (env : Env) (label lower : String) :
    selectSafer env label lower "High" =
      (if !isCommonType label && (mlSuggestion label lower == SAFE_GENERAL) then
        match generate_gemini env.gemini with
        | some g => if g ≠ "" ∧ 20 < g.length ∧ g.length ≤ 250 then (g, true)
                    else (mlSuggestion label lower, true)
        | none => (mlSuggestion label lower, true)
      else (mlSuggestion label lower, false)) := rfl

theorem segmentation_shape (doc c : String) (hc : c ∈ segmentation doc) :
    pyStrip c = c ∧ c ≠ "" ∧ c.length > 20 ∧ '\n' ∉ c.data := by
  unfold segmentation at hc
  rw [List.mem_filter] at hc
  obtain ⟨hc1, hlen⟩ := hc
  rw [List.mem_filter] at hc1
  obtain ⟨hc2, hne⟩ := hc1
  rw [List.mem_map] at hc2
  obtain ⟨x, hx, rfl⟩ := hc2
  refine ⟨pyStrip_idem x, by simpa using hne, by simpa using hlen, ?_⟩
  unfold pySplit at hx
  rw [List.mem_map] at hx
  obtain ⟨g, hg, hgx⟩ := hx
  have hnog : '\n' ∉ g := splitChar_pieces_no_sep '\n' _ g hg
  have hxdata : x.data = g := by rw [← hgx]
  intro hmem
  have hmem' : '\n' ∈ x.data := stripOuter_subset isPySpace x.data hmem
  rw [hxdata] at hmem'
  exact hnog hmem'

/-!  The claims. -/

/-- C1 (counterexample): a clause whose lower-cased text contains a
configured Medium keyword and no High keyword, yet whose final risk is
High, not Medium, because the classifier label `Liability` overrides the
rule-engine Medium verdict. -/
theorem C1_counterexample :
    ruleHit envLiability.highRules (pyLower (effText envLiability cMedium)) = false ∧
    ruleHit envLiability.mediumRules (pyLower (effText envLiability cMedium)) = true ∧
    (analyze envLiability cMedium).risk_level = "High" := by decide

/-- C1 (amended): when the text matches no High keyword but matches a
Medium keyword, the final risk is Medium unless the classifier label is
one of Indemnity, Liability, Termination, in which case the label check
overrides the rule-engine Medium verdict and the final risk is High. -/
theorem C1_medium_unless_override (env : Env) (clause : String)
    (hh : ruleHit env.highRules (pyLower (effText env clause)) = false)
    (hm : ruleHit env.mediumRules (pyLower (effText env clause)) = true) :
    (analyze env clause).risk_level =
      if overrideLabels.contains (env.classLabel (effText env clause)) then "High"
      else "Medium" := by
  rw [analyze_risk_eq]
  exact fuseRisk_of_medium _ _ _ _ hh hm

/-- C1 witness: the amended theorem applied at a concrete clause. -/
theorem C1_witness :
    (analyze envLiability cMedium).risk_level =
      (if overrideLabels.contains (envLiability.classLabel (effText envLiability cMedium))
        then "High" else "Medium") :=
  C1_medium_unless_override envLiability cMedium (by decide) (by decide)

/-- C2: if the (possibly translated) lower-cased text contains any
configured High-risk keyword as a substring, the final risk level is High
regardless of classifier label and confidence. -/
theorem C2_rule_dominance (env : Env) (clause k : String) (ks : List String)
    (hks : env.highRules = some ks) (hk : k ∈ ks)
    (hsub : subStr k (pyLower (effText env clause)) = true) :
    (analyze env clause).risk_level = "High" := by
  rw [analyze_risk_eq]
  apply fuseRisk_of_high
  simp only [ruleHit, hks]
  rw [List.any_eq_true]
  exact ⟨k, hk, hsub⟩

/-- C2 witness: the rule-dominance theorem applied at a concrete clause
containing the configured High keyword. -/
theorem C2_witness : (analyze envBase cHigh).risk_level = "High" :=
  C2_rule_dominance envBase cHigh "unlimited" ["unlimited"] rfl (by decide) (by decide)

/-- C3: when the final risk is High the safer alternative is a non-empty
string from the fixed template catalog or a validated LLM refinement
(20 < length ≤ 250) of the generic template; when the final risk is Low
or Medium it is the empty string. -/
theorem C3_safer_alternative_catalog (env : Env) (clause : String) :
    if (analyze env clause).risk_level = "High" then
      (analyze env clause).safer_alternative ≠ "" ∧
        ((analyze env clause).safer_alternative ∈ templateCatalog ∨
          (mlSuggestion (env.classLabel (effText env clause)) (pyLower (effText env clause)) =
              SAFE_GENERAL ∧
            generate_gemini env.gemini = some (analyze env clause).safer_alternative ∧
            20 < (analyze env clause).safer_alternative.length ∧
            (analyze env clause).safer_alternative.length ≤ 250))
    else (analyze env clause).safer_alternative = "" := by
  rw [analyze_risk_eq, analyze_safer_eq]
  rcases fuseRisk_mem env.highRules env.mediumRules (env.classLabel (effText env clause))
      (pyLower (effText env clause)) with hfr | hfr | hfr <;> rw [hfr]
  · rw [selectSafer_low]; simp
  · rw [selectSafer_medium]; simp
  · rw [if_pos rfl, selectSafer_high]
    cases hg : (!isCommonType (env.classLabel (effText env clause)) &&
        (mlSuggestion (env.classLabel (effText env clause)) (pyLower (effText env clause)) ==
          SAFE_GENERAL))
    · simp only [hg, Bool.false_eq_true, if_false]
      exact ⟨templateCatalog_ne_empty _ (mlSuggestion_mem _ _), Or.inl (mlSuggestion_mem _ _)⟩
    · simp only [hg, if_true]
      have hml : mlSuggestion (env.classLabel (effText env clause))
          (pyLower (effText env clause)) = SAFE_GENERAL :=
        eq_of_beq (Bool.and_elim_right hg)
      cases hgg : generate_gemini env.gemini with
      | none =>
        exact ⟨templateCatalog_ne_empty _ (mlSuggestion_mem _ _), Or.inl (mlSuggestion_mem _ _)⟩
      | some g =>
        simp only []
        split
        next hacc =>
          exact ⟨hacc.1, Or.inr ⟨hml, rfl, hacc.2.1, hacc.2.2⟩⟩
        next hacc =>
          exact ⟨templateCatalog_ne_empty _ (mlSuggestion_mem _ _), Or.inl (mlSuggestion_mem _ _)⟩

/-- C3 witness: the invariant evaluated at a concrete High-risk clause. -/
theorem C3_witness :
    if (analyze envBase cHigh).risk_level = "High" then
      (analyze envBase cHigh).safer_alternative ≠ "" ∧
        ((analyze envBase cHigh).safer_alternative ∈ templateCatalog ∨
          (mlSuggestion (envBase.classLabel (effText envBase cHigh))
              (pyLower (effText envBase cHigh)) = SAFE_GENERAL ∧
            generate_gemini envBase.gemini = some (analyze envBase cHigh).safer_alternative ∧
            20 < (analyze envBase cHigh).safer_alternative.length ∧
            (analyze envBase cHigh).safer_alternative.length ≤ 250))
    else (analyze envBase cHigh).safer_alternative = "" :=
  C3_safer_alternative_catalog envBase cHigh

/-- C4 (counterexample): the classifier softmax probability is 1/2 but the
returned confidence field is 50, which is neither that probability nor in
[0,1]. -/
theorem C4_counterexample :
    envBase.classConf (effText envBase cMedium) = 1 / 2 ∧
    (analyze envBase cMedium).confidence = 50 ∧
    ¬(analyze envBase cMedium).confidence ≤ 1 := by
  have hc : (analyze envBase cMedium).confidence = 50 := by
    rw [analyze_conf_eq]
    show pyRound2 ((1 / 2 : ℚ) * 100) = 50
    rw [pyRound2]
    norm_num
  exact ⟨rfl, hc, by rw [hc]; norm_num⟩

/-- C4 (amended): the confidence field is the classifier softmax
probability of the argmax class multiplied by 100 and rounded to two
decimals, a value in [0,100]. -/
theorem C4_confidence_scaled (env : Env) (clause : String)
    (h0 : 0 ≤ env.classConf (effText env clause))
    (h1 : env.classConf (effText env clause) ≤ 1) :
    (analyze env clause).confidence =
      pyRound2 (env.classConf (effText env clause) * 100) ∧
    0 ≤ (analyze env clause).confidence ∧ (analyze env clause).confidence ≤ 100 := by
  refine ⟨analyze_conf_eq env clause, ?_, ?_⟩ <;> rw [analyze_conf_eq, pyRound2]
  · have hq0 : (0 : ℚ) ≤ env.classConf (effText env clause) * 100 * 100 := by positivity
    have hlow := sub_half_lt_round (env.classConf (effText env clause) * 100 * 100)
    have h2 : ((-1 : ℤ) : ℚ) < (round (env.classConf (effText env clause) * 100 * 100) : ℚ) := by
      push_cast
      linarith
    have h3 : (0 : ℤ) ≤ round (env.classConf (effText env clause) * 100 * 100) := by
      have := Int.cast_lt.mp h2
      omega
    have h4 : (0 : ℚ) ≤ (round (env.classConf (effText env clause) * 100 * 100) : ℚ) := by
      exact_mod_cast h3
    linarith
  · have hq1 : env.classConf (effText env clause) * 100 * 100 ≤ 10000 := by nlinarith
    have hub := round_le_add_half (env.classConf (effText env clause) * 100 * 100)
    have h2 : (round (env.classConf (effText env clause) * 100 * 100) : ℚ) < ((10001 : ℤ) : ℚ) := by
      push_cast
      linarith
    have h3 : round (env.classConf (effText env clause) * 100 * 100) ≤ 10000 := by
      have := Int.cast_lt.mp h2
      omega
    have h4 : (round (env.classConf (effText env clause) * 100 * 100) : ℚ) ≤ 10000 := by
      exact_mod_cast h3
    linarith

/-- C4 witness: the amended confidence theorem at a concrete clause with
softmax probability 1/2. -/
theorem C4_witness :
    (analyze envBase cMedium).confidence =
        pyRound2 (envBase.classConf (effText envBase cMedium) * 100) ∧
      0 ≤ (analyze envBase cMedium).confidence ∧
        (analyze envBase cMedium).confidence ≤ 100 :=
  C4_confidence_scaled envBase cMedium
    (by show (0 : ℚ) ≤ 1 / 2; norm_num) (by show (1 / 2 : ℚ) ≤ 1; norm_num)

/-- C5: the LLM is invoked exactly when the final risk is High, the
classifier label contains none of the common clause-type substrings, and
the selected template is the generic fallback; in particular it is never
invoked for a common-type label. -/
theorem C5_llm_guard (env : Env) (clause : String) :
    geminiCalled env clause =
      ((analyze env clause).risk_level == "High" &&
        (!isCommonType ((analyze env clause).label) &&
          (mlSuggestion ((analyze env clause).label) (pyLower (effText env clause)) ==
            SAFE_GENERAL))) := by
  rw [geminiCalled_eq, analyze_risk_eq, analyze_label_eq]
  rcases fuseRisk_mem env.highRules env.mediumRules (env.classLabel (effText env clause))
      (pyLower (effText env clause)) with hfr | hfr | hfr <;> rw [hfr]
  · rw [selectSafer_low]; simp
  · rw [selectSafer_medium]; simp
  · rw [selectSafer_high]
    cases hg : (!isCommonType (env.classLabel (effText env clause)) &&
        (mlSuggestion (env.classLabel (effText env clause)) (pyLower (effText env clause)) ==
          SAFE_GENERAL))
    · simp [hg]
    · simp only [hg, if_true]
      cases hgg : generate_gemini env.gemini
      · simp [hgg]
      · simp only [hgg]
        split <;> simp

/-- C6 (counterexample): a cleaned LLM response of length exactly 250 is
not strictly between 20 and 250, yet it replaces the generic template as
the safer alternative. -/
theorem C6_counterexample :
    generate_gemini envLLM250.gemini = some s250 ∧
    s250.length = 250 ∧ ¬s250.length < 250 ∧
    (analyze envLLM250 cHigh).safer_alternative = s250 ∧
    s250 ≠ SAFE_GENERAL := by decide

/-- C6 (amended): whenever the LLM is invoked, the refined text replaces
the generic template exactly when it is non-empty with 20 < length ≤ 250
(length 250 included); on any failed, non-200, empty, or over-length
response the generic template is kept, and the computation is total. -/
theorem C6_refinement_validation (env : Env) (clause : String)
    (hcall : geminiCalled env clause = true) :
    (analyze env clause).safer_alternative =
      (match generate_gemini env.gemini with
       | some g => if g ≠ "" ∧ 20 < g.length ∧ g.length ≤ 250 then g else SAFE_GENERAL
       | none => SAFE_GENERAL) := by
  rw [geminiCalled_eq] at hcall
  rw [analyze_safer_eq]
  rcases fuseRisk_mem env.highRules env.mediumRules (env.classLabel (effText env clause))
      (pyLower (effText env clause)) with hfr | hfr | hfr <;> rw [hfr] at hcall ⊢
  · rw [selectSafer_low] at hcall; simp at hcall
  · rw [selectSafer_medium] at hcall; simp at hcall
  · rw [selectSafer_high] at hcall ⊢
    cases hg : (!isCommonType (env.classLabel (effText env clause)) &&
        (mlSuggestion (env.classLabel (effText env clause)) (pyLower (effText env clause)) ==
          SAFE_GENERAL))
    · rw [if_neg (by simp [hg])] at hcall
      exact absurd hcall (by simp)
    · rw [if_pos rfl]
      rw [if_pos hg] at hcall
      have hml : mlSuggestion (env.classLabel (effText env clause))
          (pyLower (effText env clause)) = SAFE_GENERAL :=
        eq_of_beq (Bool.and_elim_right hg)
      cases hgg : generate_gemini env.gemini with
      | none => simpa using hml
      | some g =>
        simp only []
        split
        next h => rfl
        next h => simpa using hml

/-- C6 witness: the validation theorem at a concrete clause where the LLM
call fails, so the generic template is kept. -/
theorem C6_witness :
    geminiCalled envBase cHigh = true ∧
      (analyze envBase cHigh).safer_alternative = SAFE_GENERAL :=
  ⟨by decide, by rw [C6_refinement_validation envBase cHigh (by decide)]; rfl⟩

/-- C7 (counterexample): the summarize endpoint does not reject the empty
text; it runs the pipeline and returns its summary. -/
theorem C7_counterexample :
    summarize_route envBase "" = Except.ok "Summary unavailable." := rfl

/-- C7 (amended): the document endpoint rejects empty text with a 400
client error before any per-clause analysis; the summarize endpoint does
not reject empty text and instead runs the full pipeline on it. -/
theorem C7_empty_text_endpoints (env : Env) :
    analyze_document env "" = Except.error 400 ∧
    summarize_route env "" = Except.ok (analyze env "").rule_summary :=
  ⟨rfl, rfl⟩

/-- C8: the text field of the returned record is the original clause
verbatim for every environment (translator failures included); moreover
when the translator raises and no hard-coded keyword matches, the original
text is what flows downstream. -/
theorem C8_text_verbatim (env : Env) (clause : String) :
    (analyze env clause).text = clause ∧
    (env.translator clause = none → subStr "उत्तरदायी" clause = false →
      subStr "हर्ज़ाना" clause = false → effText env clause = clause) := by
  refine ⟨analyze_text_eq env clause, fun ht h1 h2 => ?_⟩
  unfold effText
  cases hh : is_hindi clause
  · simp
  · simp only [if_pos]
    unfold translate_to_english
    rw [h1, h2, ht]
    simp

/-- C8 witness: a Hindi clause with a failing translator keeps its text
verbatim and flows through unchanged. -/
theorem C8_witness :
    (analyze envBase cHindiPlain).text = cHindiPlain ∧
      effText envBase cHindiPlain = cHindiPlain :=
  ⟨(C8_text_verbatim envBase cHindiPlain).1,
   (C8_text_verbatim envBase cHindiPlain).2 rfl (by decide) (by decide)⟩

/-- C9 (counterexample): marker removal can manufacture a fresh boundary
marker, so a produced clause re-segments to a different clause. -/
theorem C9_counterexample :
    segmentation docC9 = [clauseC9] ∧ segmentation clauseC9 ≠ [clauseC9] := by decide

/-- C9 (amended): segmentation is idempotent on every produced clause that
does not itself contain a document boundary marker: fed back as its own
document, such a clause yields exactly itself. -/
theorem C9_idempotent_no_marker (doc c : String) (hc : c ∈ segmentation doc)
    (h1 : subStr "[Start of Document]" c = false)
    (h2 : subStr "[End of Document]" c = false) :
    segmentation c = [c] := by
  obtain ⟨hstrip, hne, hlen, hnl⟩ := segmentation_shape doc c hc
  have hsplit : pySplit '\n' c = [c] := by
    unfold pySplit
    rw [splitChar_no_sep '\n' c.data hnl]
    rfl
  unfold segmentation
  simp only [pyRemove_no_occurrence _ _ h1, pyRemove_no_occurrence _ _ h2, hsplit]
  simp [hstrip, hne, hlen]

/-- C9 witness: a marker-free document whose single clause re-segments to
itself. -/
theorem C9_witness :
    docPlain ∈ segmentation docPlain ∧ segmentation docPlain = [docPlain] :=
  ⟨by decide, C9_idempotent_no_marker docPlain docPlain (by decide) (by decide) (by decide)⟩

/-- C10: any clause containing either hard-coded Devanagari keyword is
translated to the fixed English sentence without consulting the external
translator, and its label, risk and summary are computed from that fixed
sentence (the summary being the fixed Hindi disclaimer). -/
theorem C10_fixed_hindi_shortcut (env : Env) (clause : String)
    (h : subStr "उत्तरदायी" clause = true ∨ subStr "हर्ज़ाना" clause = true) :
    effText env clause = FIXED_TRANSLATION ∧
    (∀ tr : String → Option String,
      translate_to_english { env with translator := tr } clause = FIXED_TRANSLATION) ∧
    (analyze env clause).label = env.classLabel FIXED_TRANSLATION ∧
    (analyze env clause).risk_level =
      fuseRisk env.highRules env.mediumRules (env.classLabel FIXED_TRANSLATION)
        (pyLower FIXED_TRANSLATION) ∧
    (analyze env clause).rule_summary = HINDI_SUMMARY := by
  have hcond : (subStr "उत्तरदायी" clause || subStr "हर्ज़ाना" clause) = true := by
    rcases h with h | h <;> simp [h]
  have htr : ∀ e : Env, translate_to_english e clause = FIXED_TRANSLATION := by
    intro e
    unfold translate_to_english
    rw [hcond]
    simp
  have hhin : is_hindi clause = true := by
    unfold is_hindi
    rw [List.any_eq_true]
    rcases h with h | h
    · have hinf : ("उत्तरदायी" : String).data <:+: clause.data := by
        rw [subStr] at h
        exact of_decide_eq_true h
      exact ⟨'उ', hinf.subset (by decide), by decide⟩
    · have hinf : ("हर्ज़ाना" : String).data <:+: clause.data := by
        rw [subStr] at h
        exact of_decide_eq_true h
      exact ⟨'ह', hinf.subset (by decide), by decide⟩
  have heff : effText env clause = FIXED_TRANSLATION := by
    unfold effText
    rw [hhin, htr env]
    simp
  refine ⟨heff, fun tr => htr _, ?_, ?_, ?_⟩
  · rw [analyze_label_eq, heff]
  · rw [analyze_risk_eq, heff]
  · rw [analyze_summary_eq, hhin]
    unfold ruleSummary
    simp

/-- C10 witness: the shortcut theorem at a concrete keyword-bearing Hindi
clause. -/
theorem C10_witness :
    effText envBase cHindiKW = FIXED_TRANSLATION ∧
      (analyze envBase cHindiKW).rule_summary = HINDI_SUMMARY :=
  ⟨(C10_fixed_hindi_shortcut envBase cHindiKW (Or.inl (by decide))).1,
   (C10_fixed_hindi_shortcut envBase cHindiKW (Or.inl (by decide))).2.2.2.2⟩

end LexSaksham
